import Mathlib

/-!
Verification of the statistical-metadata core of intelligent-biostats.

Shallow embedding of `app/core/enums.py`, `app/core/data_manager.py` and the
pipeline driver in `app/routes.py`.  Columns are modelled the way
`pandas.read_csv` materialises them: a numeric (float64/int64) column is a
list of optional rationals (`none` = NaN), a datetime column a list of
optional integer timestamps (seconds; `none` = NaT), and an object column a
list of optional strings.  Float arithmetic is embedded as exact rational
arithmetic; where the source stores an irrational float (a standard
deviation or a skewness, both square roots of rationals), the embedding
stores the rational data that determine it exactly, as noted at each field.
-/

namespace Biostats

/-- Flags for data points, from `app/core/enums.py` (`DataPointFlag`).
The source enum has exactly these four members; in particular it has no
`OUTOFBOUNDS` member even though `data_manager.py` line 1615 refers to one. -/
inductive DataPointFlag where
  | NORMAL
  | OUTLIER
  | MISSING
  | UNEXPECTED_TYPE
deriving DecidableEq, Repr

/-- Column types, from `data_manager.py` (`ColumnType`). -/
inductive ColumnType where
  | NUMERIC
  | CATEGORICAL
  | BOOLEAN
  | TIMESERIES
  | DISCRETE
  | ORDINAL
  | CENSORED
deriving DecidableEq, Repr

/-- The `.value` string of each `ColumnType` member. -/
def ColumnType.value : ColumnType → String
  | .NUMERIC => "numeric"
  | .CATEGORICAL => "categorical"
  | .BOOLEAN => "boolean"
  | .TIMESERIES => "timeseries"
  | .DISCRETE => "discrete"
  | .ORDINAL => "ordinal"
  | .CENSORED => "censored"

/-- A pandas Series as `read_csv` produces it: the constructor records the
dtype (numeric / datetime64 / object), the list the cells, `none` a missing
cell (NaN / NaT). -/
inductive Series where
  | numeric (vals : List (Option ℚ))
  | datetime (vals : List (Option ℤ))
  | object (vals : List (Option String))
deriving DecidableEq, Repr

/-- `pd.api.types.is_numeric_dtype`. -/
def Series.isNumericDtype : Series → Bool
  | .numeric _ => true
  | _ => false

/-- `pd.api.types.is_datetime64_any_dtype`. -/
def Series.isDatetimeDtype : Series → Bool
  | .datetime _ => true
  | _ => false

/-- Number of rows of the series (missing cells included). -/
def Series.length : Series → ℕ
  | .numeric vs => vs.length
  | .datetime vs => vs.length
  | .object vs => vs.length

/-- The non-missing values of a numeric series (`Series.dropna`). -/
def dropNone {α : Type} (vs : List (Option α)) : List α := vs.filterMap id

/-- `Series.nunique()`: number of distinct non-missing values. -/
def Series.nunique : Series → ℕ
  | .numeric vs => (dropNone vs).dedup.length
  | .datetime vs => (dropNone vs).dedup.length
  | .object vs => (dropNone vs).dedup.length

/-- `Series.isna().sum()`: number of missing cells. -/
def Series.missingCount : Series → ℕ
  | .numeric vs => vs.countP (· = none)
  | .datetime vs => vs.countP (· = none)
  | .object vs => vs.countP (· = none)

/-- `DataManager._is_censored` (data_manager.py lines 304-307): the body is
a placeholder that returns `False` on every input. -/
def isCensored (_ : Series) : Bool := false

/-- `DataManager._determine_column_type` (data_manager.py lines 165-179).
The ordinal heuristic `_is_ordinal` (a battery of regular-expression and
vocabulary checks, lines 181-302) is taken as a parameter `isOrd`; every
theorem below either quantifies over it or concerns a branch taken before
the heuristic is consulted, so no behaviour of the real heuristic beyond
its type is assumed.  Branch order is exactly the source's: numeric dtype
(split discrete/numeric at 20 distinct values), datetime dtype, exactly two
distinct values, ordinal heuristic, censored detector, else categorical. -/
def determineColumnType (isOrd : Series → Bool) (s : Series) : ColumnType :=
  if s.isNumericDtype then
    if s.nunique < 20 then ColumnType.DISCRETE else ColumnType.NUMERIC
  else if s.isDatetimeDtype then ColumnType.TIMESERIES
  else if s.nunique = 2 then ColumnType.BOOLEAN
  else if isOrd s then ColumnType.ORDINAL
  else if isCensored s then ColumnType.CENSORED
  else ColumnType.CATEGORICAL

/-- A trivially-false ordinal oracle, used to instantiate closed statements
whose truth does not depend on the ordinal heuristic (the branch concerned
is decided before `_is_ordinal` is consulted).  On the concrete columns it
is applied to below, the real `_is_ordinal` also returns `False` (they have
fewer than 2 unique values, or plain words matching no ordinal pattern). -/
def constFalseOrd : Series → Bool := fun _ => false

/-- The column `["Yes","No","Yes","No"]` of spec Scenario B, an object
(string) column as `read_csv` yields it. -/
def yesNoColumn : Series :=
  Series.object [some "Yes", some "No", some "Yes", some "No"]

/-! ### Moments and `DataManager._determine_distribution`

`pandas.Series.skew()` returns `NaN` for fewer than 3 values, `0` when the
second central moment vanishes, and otherwise the adjusted Fisher-Pearson
coefficient `G1 = sqrt(n*(n-1)) * m3 / ((n-2) * m2^1.5)` (central moments
`m_r` over the values).  `G1` is an irrational float; it is embedded exactly
by its sign (the sign of `m3`) together with its square
`n*(n-1)*m3^2 / ((n-2)^2*m2^3)`, which is rational — `x ↦ x^2` is strictly
monotone on nonnegatives, so every threshold comparison the source makes on
`G1` is expressed by the equivalent comparison on the square and sign.
`pandas.Series.kurtosis()` (`G2`) is NaN for fewer than 4 values, `0` at
vanishing `m2`, and otherwise exactly rational.  A comparison against `NaN`
is false in Python, which is how the `NaN` flags gate every branch below. -/

/-- Arithmetic mean of a list of rationals. -/
def qmean (xs : List ℚ) : ℚ := xs.sum / xs.length

/-- The r-th central moment `m_r = (1/n) * Σ (x - mean)^r`. -/
def centralMoment (r : ℕ) (xs : List ℚ) : ℚ :=
  (xs.map (fun x => (x - qmean xs) ^ r)).sum / xs.length

/-- `Series.skew()` is NaN iff there are fewer than 3 values. -/
def skewIsNaN (xs : List ℚ) : Bool := xs.length < 3

/-- Sign of the pandas skewness (the sign of `m3`; `0` when `m2 = 0`,
matching pandas' zero-variance result of `0.0`). -/
def skewSgn (xs : List ℚ) : ℤ :=
  if centralMoment 2 xs = 0 then 0
  else if 0 < centralMoment 3 xs then 1
  else if centralMoment 3 xs < 0 then -1
  else 0

/-- Square of the pandas skewness `G1` (exactly rational; `0` when
`m2 = 0`, matching pandas' zero-variance result of `0.0`). -/
def skewSq (xs : List ℚ) : ℚ :=
  if centralMoment 2 xs = 0 then 0
  else
    let n : ℚ := xs.length
    n * (n - 1) * (centralMoment 3 xs) ^ 2
      / ((n - 2) ^ 2 * (centralMoment 2 xs) ^ 3)

/-- `Series.kurtosis()` is NaN iff there are fewer than 4 values. -/
def kurtIsNaN (xs : List ℚ) : Bool := xs.length < 4

/-- The pandas sample kurtosis
`G2 = (n-1)*(n+1)*m4 / ((n-2)*(n-3)*m2^2) - 3*(n-1)^2 / ((n-2)*(n-3))`,
exactly rational (`0` when `m2 = 0`, matching pandas). -/
def kurtVal (xs : List ℚ) : ℚ :=
  if centralMoment 2 xs = 0 then 0
  else
    let n : ℚ := xs.length
    (n - 1) * (n + 1) * centralMoment 4 xs
        / ((n - 2) * (n - 3) * (centralMoment 2 xs) ^ 2)
      - 3 * (n - 1) ^ 2 / ((n - 2) * (n - 3))

/-- `abs(skewness) < 0.5`, with NaN comparing false. -/
def skewAbsLtHalf (xs : List ℚ) : Bool :=
  !skewIsNaN xs && decide (skewSq xs < 1 / 4)

/-- `skewness > 1`, with NaN comparing false. -/
def skewGtOne (xs : List ℚ) : Bool :=
  !skewIsNaN xs && decide (skewSgn xs = 1) && decide (1 < skewSq xs)

/-- `skewness < -1`, with NaN comparing false. -/
def skewLtNegOne (xs : List ℚ) : Bool :=
  !skewIsNaN xs && decide (skewSgn xs = -1) && decide (1 < skewSq xs)

/-- `abs(kurtosis) < 2`, with NaN comparing false. -/
def kurtAbsLtTwo (xs : List ℚ) : Bool :=
  !kurtIsNaN xs && decide (|kurtVal xs| < 2)

/-- The `elif` cascade of `_determine_distribution` below its first branch
(data_manager.py lines 362-375): the purely moment-based classification. -/
def momentFallbackCascade (xs : List ℚ) : String :=
  if skewGtOne xs then "right_skewed"
  else if skewLtNegOne xs then "left_skewed"
  else if !kurtIsNaN xs && decide (3 < kurtVal xs) then "heavy_tailed"
  else if !kurtIsNaN xs && decide (kurtVal xs < -1) then "light_tailed"
  else "unknown"

/-- `DataManager._determine_distribution` (data_manager.py lines 346-375):
`normal` when `abs(skew) < 0.5 and abs(kurtosis) < 2`, otherwise the
moment-based cascade.  The source performs no sample-size check and no
normality test. -/
def determineDistribution (xs : List ℚ) : String :=
  if skewAbsLtHalf xs && kurtAbsLtTwo xs then "normal"
  else momentFallbackCascade xs

/-- Modelled from the spec: the normality-test-gated classifier that claim
C8 attributes to the code (spec section 4.2a).  The test's p-value is a
parameter `p`; `normal` is accepted only when the moment pre-filter holds
and `p > 0.05`, otherwise the result falls through to the moment-based
fallback classification.  No such test exists in `data_manager.py`; this
definition exists only to state claim C8 against the code. -/
def specDistributionWithTest (p : ℚ) (xs : List ℚ) : String :=
  if skewAbsLtHalf xs && kurtAbsLtTwo xs then
    if 1 / 20 < p then "normal" else momentFallbackCascade xs
  else momentFallbackCascade xs

/-! ### `DataManager.add_new_column_range_flags` (data_manager.py 1547-1651) -/

/-- How `add_new_column_range_flags` terminates.  The first three cases are
the `ValueError`s raised by its guard clauses; `attributeErrorOutOfBounds`
models the `AttributeError` raised at line 1615, where the source evaluates
`DataPointFlag.OUTOFBOUNDS` — a member the enum in `enums.py` does not
define — so the flag-writing statement itself always fails. -/
inductive RangeFlagError where
  | invalidRange
  | nonNumericColumn
  | tooFewNormal
  | attributeErrorOutOfBounds
deriving DecidableEq, Repr

/-- Whether the error is one of the `raise ValueError(...)` guard failures
(as opposed to the `AttributeError` of the missing enum member). -/
def RangeFlagError.isValueError : RangeFlagError → Bool
  | .attributeErrorOutOfBounds => false
  | _ => true

/-- Statistics the operation's docstring promises on success (never
reached; kept to give the `Except` a success type of the documented shape). -/
structure RangeStats where
  total_points : ℤ
  outofbounds_points : ℤ
  remaining_normal : ℤ
deriving DecidableEq, Repr

/-- The out-of-bounds mask of data_manager.py lines 1584-1587.  The source
writes `(col < min) | (col > max) & ~col.isna()`; since `&` binds tighter
than `|` the `isna` factor attaches only to the upper comparison, but a NaN
cell compares false on both sides anyway, so the mask is false exactly at
missing cells and at in-range values. -/
def outOfBoundsMask (vals : List (Option ℚ)) (minV maxV : ℚ) : List Bool :=
  vals.map fun v =>
    match v with
    | none => false
    | some x => decide (x < minV) || decide (maxV < x)

/-- `remaining_normal` as the source computes it (lines 1592-1596):
`total_points - outofbounds_points - missing_points`, where
`missing_points` counts cells whose current flag is `MISSING`. -/
def remainingNormalCount (vals : List (Option ℚ)) (flags : List DataPointFlag)
    (minV maxV : ℚ) : ℤ :=
  (vals.length : ℤ) - ((outOfBoundsMask vals minV maxV).count true : ℤ)
    - (flags.count DataPointFlag.MISSING : ℤ)

/-- `DataManager.add_new_column_range_flags` on one column: takes the
column's series and its flag slice, returns the outcome together with the
(possibly updated) flag slice.  Guard order is the source's: `min >= max`
(line 1566), numeric dtype (line 1580), the 20-remaining-normal floor
(line 1605).  When every guard passes, line 1615 evaluates
`DataPointFlag.OUTOFBOUNDS`, which raises `AttributeError` before any flag
is assigned — so every path leaves the flag slice untouched. -/
def addNewColumnRangeFlags (s : Series) (flags : List DataPointFlag)
    (minV maxV : ℚ) : Except RangeFlagError RangeStats × List DataPointFlag :=
  if maxV ≤ minV then (Except.error RangeFlagError.invalidRange, flags)
  else
    match s with
    | .numeric vals =>
        if remainingNormalCount vals flags minV maxV < 20 then
          (Except.error RangeFlagError.tooFewNormal, flags)
        else
          (Except.error RangeFlagError.attributeErrorOutOfBounds, flags)
    | _ => (Except.error RangeFlagError.nonNumericColumn, flags)

/-- The source's `remaining_normal` for an arbitrary series: the value the
guard at line 1605 compares to 20 (only a numeric series reaches that
guard; on other dtypes the value is irrelevant and taken as 0). -/
def codeRemainingNormal (s : Series) (flags : List DataPointFlag)
    (minV maxV : ℚ) : ℤ :=
  match s with
  | .numeric vals => remainingNormalCount vals flags minV maxV
  | _ => 0

/-! ### `DataManager._update_numeric_IQR_outlier_flags` (data_manager.py 773-812) -/

/-- Insertion of a rational into a sorted list (ascending). -/
def insertSorted (x : ℚ) : List ℚ → List ℚ
  | [] => [x]
  | y :: ys => if x ≤ y then x :: y :: ys else y :: insertSorted x ys

/-- Ascending insertion sort. -/
def sortQ (xs : List ℚ) : List ℚ := xs.foldr insertSorted []

/-- `Series.quantile(q)` with pandas' default linear interpolation, over the
non-missing values: with the `n` values sorted ascending, the quantile sits
at fractional position `q*(n-1)` and interpolates linearly between the two
neighbouring order statistics.  (Callers guard against the empty list, for
which pandas returns NaN; the value 0 returned here is never used.) -/
def quantileLinear (q : ℚ) (xs : List ℚ) : ℚ :=
  let s := sortQ xs
  let n := s.length
  if n = 0 then 0
  else
    let pos : ℚ := q * ((n : ℚ) - 1)
    let i : ℕ := pos.floor.toNat
    let frac : ℚ := pos - (i : ℚ)
    match s.get? i, s.get? (i + 1) with
    | some a, some b => a + frac * (b - a)
    | some a, none => a
    | none, _ => 0

/-- The per-cell flag update of lines 795-797: a non-missing value outside
`[lower, upper]` is flagged `OUTLIER`, every other cell keeps its flag (a
NaN compares false against both bounds, so missing cells are never in the
mask).  Truncates like the row-aligned numpy mask if the lists were of
different lengths (they never are). -/
def markOutliers (lowerB upperB : ℚ) :
    List (Option ℚ) → List DataPointFlag → List DataPointFlag
  | [], fs => fs
  | _ :: _, [] => []
  | v :: vs, f :: fs =>
      (match v with
       | none => f
       | some x =>
           if x < lowerB ∨ upperB < x then DataPointFlag.OUTLIER else f)
        :: markOutliers lowerB upperB vs fs

/-- One column of `_update_numeric_IQR_outlier_flags` (lines 784-797): only
a numeric column with at least one non-missing value is processed; bounds
are `Q1 - 1.5*IQR` and `Q3 + 1.5*IQR` over the column (quantiles ignore
NaN). -/
def updateIQRFlagsCol (s : Series) (flags : List DataPointFlag) :
    List DataPointFlag :=
  match s with
  | .numeric vals =>
      let cleaned := dropNone vals
      if cleaned.length = 0 then flags
      else
        let q1 := quantileLinear (1 / 4) cleaned
        let q3 := quantileLinear (3 / 4) cleaned
        let iqr := q3 - q1
        markOutliers (q1 - 3 / 2 * iqr) (q3 + 3 / 2 * iqr) vals flags
  | _ => flags

/-- A dataset: the ordered, named, row-aligned columns of the loaded frame. -/
abbrev Dataset := List (String × Series)

/-- The flag grid, column-sliced: one flag list per column, aligned with the
dataset's column order. -/
abbrev FlagGrid := List (List DataPointFlag)

/-- `DataManager._update_numeric_IQR_outlier_flags`: the per-column update
applied to every column of the dataset. -/
def updateIQRFlags (d : Dataset) (g : FlagGrid) : FlagGrid :=
  (d.zip g).map fun cg => updateIQRFlagsCol cg.1.2 cg.2

/-- The flag of the cell in column `c`, row `r` of a grid (`none` when out
of range). -/
def flagAt (g : FlagGrid) (c r : ℕ) : Option DataPointFlag :=
  (g.get? c).bind fun col => col.get? r

/-- Whether the cell at row `r` of the series holds a missing value. -/
def Series.isMissingAt (s : Series) (r : ℕ) : Bool :=
  match s with
  | .numeric vs => vs.get? r == some none
  | .datetime vs => vs.get? r == some none
  | .object vs => vs.get? r == some none

/-- Whether the dataset's cell in column `c`, row `r` holds a missing value. -/
def cellIsMissing (d : Dataset) (c r : ℕ) : Bool :=
  match d.get? c with
  | none => false
  | some col => col.2.isMissingAt r

/-! ### The progress-tracked pipeline run
(`app/routes.py` lines 320-399 with the stage methods of data_manager.py) -/

/-- `DataManager.stats_progress`, the pollable progress snapshot (the
success-path dictionary shape: percent, current task, completion flag). -/
structure ProgressState where
  percent : ℤ
  current_task : String
  is_complete : Bool
deriving DecidableEq, Repr

/-- The initial `stats_progress` set in `__init__`/`reset`. -/
def initialProgress : ProgressState :=
  { percent := 0, current_task := "Not started", is_complete := false }

/-- `DataManager.update_progress` (lines 1825-1841): overwrites the whole
snapshot under the lock. -/
def updateProgress (_ : ProgressState) (p : ℤ) (task : String)
    (c : Bool) : ProgressState :=
  { percent := p, current_task := task, is_complete := c }

/-- One recorded `update_progress` call: (percent, task, is_complete). -/
abbrev ProgressUpdate := ℤ × String × Bool

/-- The two `update_progress` calls inside `analyze_column_types`
(lines 1659, 1677). -/
def analyzeColumnTypesUpdates : List ProgressUpdate :=
  [(15, "Analyzing column types...", false),
   (20, "Column types analyzed", false)]

/-- The two `update_progress` calls inside `calculate_basic_stats`
(lines 1686, 1722). -/
def calculateBasicStatsUpdates : List ProgressUpdate :=
  [(30, "Calculating basic statistics...", false),
   (40, "Basic statistics calculated", false)]

/-- The two `update_progress` calls inside `analyze_distributions`
(lines 1731, 1781). -/
def analyzeDistributionsUpdates : List ProgressUpdate :=
  [(50, "Analyzing distributions...", false),
   (60, "Distribution analysis complete", false)]

/-- The two `update_progress` calls inside `detect_outliers`
(lines 1790, 1822). -/
def detectOutliersUpdates : List ProgressUpdate :=
  [(70, "Detecting outliers...", false),
   (80, "Outlier detection complete", false)]

/-- The five `update_progress` calls inside `calculate_descriptive_stats`
(lines 941, 966, 975, 1071, 1097). -/
def calculateDescriptiveStatsUpdates : List ProgressUpdate :=
  [(85, "Processing column metadata...", false),
   (87, "Analyzing data quality...", false),
   (90, "Calculating column statistics...", false),
   (93, "Processing categorical data...", false),
   (95, "Finalizing calculations...", false)]

/-- Every `update_progress` call of one successful pipeline run, in program
order: the route handler's call at line 331, then the background worker of
`start_descriptive_stats.calculate_stats` (routes.py lines 335-399), which
interleaves its own announcements with the stage methods' internal calls.
In particular the worker itself announces 85..95 (lines 377-391) before
`calculate_descriptive_stats` re-issues the same five percentages, and
finishes with `update_progress(100, 'Complete', True)` (line 398). -/
def successfulRunUpdates : List ProgressUpdate :=
  [((5 : ℤ), "Starting analysis...", false)]
    ++ [(15, "Analyzing column types...", false)]
    ++ analyzeColumnTypesUpdates
    ++ [(20, "Column types analyzed", false)]
    ++ [(30, "Calculating basic statistics...", false)]
    ++ calculateBasicStatsUpdates
    ++ [(40, "Basic statistics calculated", false)]
    ++ [(50, "Analyzing distributions...", false)]
    ++ analyzeDistributionsUpdates
    ++ [(60, "Distribution analysis complete", false)]
    ++ [(70, "Detecting outliers...", false)]
    ++ detectOutliersUpdates
    ++ [(80, "Outlier detection complete", false)]
    ++ [(85, "Processing column metadata...", false),
        (87, "Analyzing data quality...", false),
        (90, "Calculating column statistics...", false),
        (93, "Processing categorical data...", false),
        (95, "Finalizing calculations...", false)]
    ++ calculateDescriptiveStatsUpdates
    ++ [(100, "Complete", true)]

/-- The sequence of percent values recorded by the successive
`update_progress` calls of a successful run. -/
def successfulRunPercents : List ℤ :=
  successfulRunUpdates.map fun u => u.1

/-- The progress state after replaying a list of updates. -/
def replayProgress (us : List ProgressUpdate) : ProgressState :=
  us.foldl (fun st u => updateProgress st u.1 u.2.1 u.2.2) initialProgress

/-- Whether `R` holds for every pair of adjacent elements of the list. -/
def pairwiseHolds (R : ℤ → ℤ → Bool) : List ℤ → Bool
  | a :: b :: rest => R a b && pairwiseHolds R (b :: rest)
  | _ => true

/-! ### The descriptive-statistics snapshot
(`DataManager.calculate_descriptive_stats`, lines 935-1098, and
`DataManager.update_descriptive_stats`, lines 1286-1403)

Python dictionaries are embedded as association lists in insertion order
(which is how Python iterates them).  The snapshot model carries every
per-column statistics dictionary of `_descriptive_stats`; the derived
`data_quality` and `validation_results` aggregates (recomputed from scratch
by both paths) are outside every claim and are not modelled. -/

/-- Smallest element of a list of rationals (`0` for the empty list, which
callers rule out). -/
def qlistMin : List ℚ → ℚ
  | [] => 0
  | x :: xs => xs.foldl min x

/-- Largest element of a list of rationals (`0` for the empty list). -/
def qlistMax : List ℚ → ℚ
  | [] => 0
  | x :: xs => xs.foldl max x

/-- `Series.median()`: middle order statistic, or the average of the two
middle ones for an even count. -/
def qmedian (xs : List ℚ) : ℚ :=
  let s := sortQ xs
  let n := s.length
  if n = 0 then 0
  else if n % 2 = 1 then s.getD (n / 2) 0
  else (s.getD (n / 2 - 1) 0 + s.getD (n / 2) 0) / 2

/-- The sample variance `Σ (x - mean)^2 / (n - 1)`: the square of the float
`Series.std()` stores, embedded exactly.  (For `n = 1` pandas yields NaN;
the division by zero yields `0` here, and no claim touches that case.) -/
def sampleVar (xs : List ℚ) : ℚ :=
  (xs.map (fun x => (x - qmean xs) ^ 2)).sum / ((xs.length : ℚ) - 1)

/-- The `descriptive_stats` sub-dictionary of a numeric column's
`distribution_analysis` entry.  `stdSq` embeds the float `std` exactly by
its square (the sample variance), `x ↦ sqrt x` being injective there. -/
structure DistDescStats where
  min : ℚ
  max : ℚ
  mean : ℚ
  median : ℚ
  stdSq : ℚ
deriving DecidableEq, Repr

/-- A `distribution_analysis` entry (lines 1007-1018).  The float
`skewness` field is embedded exactly by its NaN flag, sign and square; the
float `kurtosis` by its NaN flag and exact rational value. -/
structure DistEntry where
  descriptive_stats : DistDescStats
  skewnessIsNaN : Bool
  skewnessSgn : ℤ
  skewnessSq : ℚ
  kurtosisIsNaN : Bool
  kurtosis : ℚ
  distribution_type : String
deriving DecidableEq, Repr

/-- The `distribution_analysis` entry computed for a numeric column (every
pandas aggregation involved skips NaN, so all are taken over the
non-missing values). -/
def distEntryOf (vals : List (Option ℚ)) : DistEntry :=
  let cl := dropNone vals
  { descriptive_stats :=
      { min := qlistMin cl, max := qlistMax cl, mean := qmean cl
        median := qmedian cl, stdSq := sampleVar cl }
    skewnessIsNaN := skewIsNaN cl
    skewnessSgn := skewSgn cl
    skewnessSq := skewSq cl
    kurtosisIsNaN := kurtIsNaN cl
    kurtosis := kurtVal cl
    distribution_type := determineDistribution cl }

/-- An `outlier_info` entry (lines 997-1005). -/
structure OutlierEntry where
  count : ℕ
  percentage : ℚ
  lower : ℚ
  upper : ℚ
deriving DecidableEq, Repr

/-- The IQR outlier summary of a numeric column (lines 988-1005): an entry
exists only when at least one non-missing value falls outside
`[Q1 - 1.5*IQR, Q3 + 1.5*IQR]`. -/
def outlierEntryOf (vals : List (Option ℚ)) : Option OutlierEntry :=
  let cl := dropNone vals
  let q1 := quantileLinear (1 / 4) cl
  let q3 := quantileLinear (3 / 4) cl
  let iqr := q3 - q1
  let lowerB := q1 - 3 / 2 * iqr
  let upperB := q3 + 3 / 2 * iqr
  let cnt := cl.countP fun x => decide (x < lowerB) || decide (upperB < x)
  if cnt = 0 then none
  else some { count := cnt, percentage := (cnt : ℚ) / (cl.length : ℚ) * 100
              lower := lowerB, upper := upperB }

/-- The distinct values of a list in order of first appearance (how a
pandas groupby over an object column enumerates groups). -/
def uniqueFirst : List String → List String
  | [] => []
  | x :: xs => x :: uniqueFirst (xs.filter (fun y => y ≠ x))
termination_by l => l.length
decreasing_by
  simp only [List.length_cons]
  exact Nat.lt_succ_of_le (List.length_filter_le _ _)

/-- Insertion into a count-descending list, after every entry with at least
as large a count (keeping first-appearance order among ties). -/
def insertByCountDesc (p : String × ℕ) :
    List (String × ℕ) → List (String × ℕ)
  | [] => [p]
  | q :: qs => if q.2 < p.2 then p :: q :: qs else q :: insertByCountDesc p qs

/-- `Series.value_counts()` over the non-missing tokens: pairs
(value, count), sorted by count descending, ties in first-appearance order. -/
def valueCountsStr (tokens : List String) : List (String × ℕ) :=
  ((uniqueFirst tokens).map fun v => (v, tokens.count v)).foldr
    insertByCountDesc []

/-- A `categorical_stats` / `ordinal_stats` entry (lines 1034-1044). -/
structure CatEntry where
  unique_count : ℕ
  most_frequent_value : String
  most_frequent_count : ℕ
  value_distribution : List (String × ℕ)
deriving DecidableEq, Repr

/-- The categorical summary of an object column: built only when
`value_counts()` is non-empty (line 1033); `most_frequent` is its first row
and `value_distribution` its first ten. -/
def catEntryOf (vs : List (Option String)) : Option CatEntry :=
  match valueCountsStr (dropNone vs) with
  | [] => none
  | p :: rest =>
      some { unique_count := (dropNone vs).dedup.length
             most_frequent_value := p.1
             most_frequent_count := p.2
             value_distribution := (p :: rest).take 10 }

/-- A `boolean_stats` entry (lines 1054-1058). -/
structure BoolEntry where
  true_count : ℕ
  false_count : ℕ
  true_percentage : ℚ
deriving DecidableEq, Repr

/-- The boolean summary of lines 1050-1058: `value_counts().get(True, 0)`
and `.get(False, 0)` look the Python literals `True`/`False` up among the
column's values; a boolean-classified column here is an object column of
strings (a CSV column of two distinct tokens), where neither literal ever
occurs, so both counts are 0 and the percentage falls to its 0 default. -/
def boolEntryCalc (_ : List (Option String)) : BoolEntry :=
  { true_count := 0, false_count := 0, true_percentage := 0 }

/-- Smallest element of a list of integers (`none` for the empty list —
the NaT that pandas `min()` yields on an all-missing column). -/
def intListMin : List ℤ → Option ℤ
  | [] => none
  | x :: xs => some (xs.foldl min x)

/-- Largest element of a list of integers (`none` for the empty list). -/
def intListMax : List ℤ → Option ℤ
  | [] => none
  | x :: xs => some (xs.foldl max x)

/-- Ascending insertion sort on integers. -/
def sortZ (xs : List ℤ) : List ℤ :=
  xs.foldr (fun x l => l.takeWhile (· < x) ++ x :: l.dropWhile (· < x)) []

/-- Differences between consecutive elements
(`sorted_data.diff().dropna()`). -/
def adjDiffs : List ℤ → List ℤ
  | a :: b :: rest => (b - a) :: adjDiffs (b :: rest)
  | _ => []

/-- `differences.mode().iloc[0]`: the smallest among the most frequent
values (`none` on an empty list, where `iloc[0]` raises `IndexError`). -/
def modeMin (l : List ℤ) : Option ℤ :=
  let top := (l.map fun d => l.count d).foldr max 0
  intListMin (l.filter fun d => l.count d = top)

/-- The magnitude bucketing of `_calculate_time_interval` (lines 1120-1142)
applied to a difference of `secs` seconds; `int(x)` truncates toward zero,
which integer division reproduces (all differences are nonnegative). -/
def bucketInterval (secs : ℤ) : String :=
  if (secs : ℚ) / 86400 < 1 / 24 then
    if (secs : ℚ) / 60 < 1 then
      let k := secs
      s!"{k} seconds"
    else
      let k := secs / 60
      s!"{k} minutes"
  else if (secs : ℚ) / 86400 < 1 then
    let k := secs / 3600
    s!"{k} hours"
  else if (secs : ℚ) / 86400 < 7 then
    let k := secs / 86400
    s!"{k} days"
  else if (secs : ℚ) / 86400 < 31 then
    let k := secs / 604800
    s!"{k} weeks"
  else if (secs : ℚ) / 86400 < 365 then
    let k := (((secs : ℚ) / 86400) / (3044 / 100)).floor
    s!"{k} months"
  else
    let k := (((secs : ℚ) / 86400) / (36525 / 100)).floor
    s!"{k} years"

/-- `DataManager._calculate_time_interval` (lines 1100-1142) on a datetime
column with `total` rows and non-missing timestamps `cleaned`: `unknown`
for fewer than 2 rows; otherwise NaT sorts last and its differences drop
out, so the mode is taken over the consecutive differences of the sorted
non-missing values — and when fewer than 2 of those exist the `iloc[0]` on
the empty mode raises `IndexError` (`none`). -/
def calculateTimeInterval (total : ℕ) (cleaned : List ℤ) : Option String :=
  if total < 2 then some "unknown"
  else
    match modeMin (adjDiffs (sortZ cleaned)) with
    | none => none
    | some secs => some (bucketInterval secs)

/-- A `datetime_stats` entry (lines 1060-1065).  `start_ts`/`end_ts`/
`range_ts` embed `str(min)`, `str(max)` and their difference; `none` is the
NaT string. -/
structure DatetimeEntry where
  start_ts : Option ℤ
  end_ts : Option ℤ
  range_ts : Option ℤ
  time_interval : String
deriving DecidableEq, Repr

/-- The datetime summary of a timeseries column; `none` when
`_calculate_time_interval` raises `IndexError` (at least 2 rows but fewer
than 2 non-missing timestamps), in which case the `except` block of the
column loop at lines 1066-1069 fires. -/
def datetimeEntryOf (vals : List (Option ℤ)) : Option DatetimeEntry :=
  let cl := dropNone vals
  match calculateTimeInterval vals.length cl with
  | none => none
  | some t =>
      some { start_ts := intListMin cl, end_ts := intListMax cl
             range_ts := match intListMin cl, intListMax cl with
               | some a, some b => some (b - a)
               | _, _ => none
             time_interval := t }

/-- The type string `calculate_descriptive_stats` records for a column.
Numeric-dtype columns get `numeric`/`discrete` at the 20-distinct-values
split (line 1019 for a column with data, and identically through
`_determine_column_type` for an all-NaN numeric column, whose 0 distinct
values make it discrete).  All other columns go through
`_determine_column_type` — except that a datetime column on which the
`datetime_stats` construction raises falls to the `except` handler, which
overwrites its slot with `categorical` (line 1068). -/
def calcTypeString (isOrd : Series → Bool) (s : Series) : String :=
  match s with
  | .datetime vals =>
      if (datetimeEntryOf vals).isNone then "categorical" else "timeseries"
  | _ => (determineColumnType isOrd s).value

/-- The inline type determination `update_descriptive_stats` applies to a
column missing from the stored map (lines 1322-1334): numeric/discrete,
timeseries, boolean at exactly 2 distinct values, else categorical — with
no ordinal or censored detection. -/
def patchTypeString (s : Series) : String :=
  match s with
  | .numeric _ => if s.nunique < 20 then "discrete" else "numeric"
  | .datetime _ => "timeseries"
  | .object _ => if s.nunique = 2 then "boolean" else "categorical"

/-- The `column_types` summary dictionary.  `ordinal` and `discrete` are
`Option` because the full calculation writes both keys (lines 1081-1082)
while the patched summary of `update_descriptive_stats` omits them
(lines 1337-1344). -/
structure ColumnTypesSummary where
  numeric : ℕ
  categorical : ℕ
  boolean : ℕ
  datetime : ℕ
  ordinal : Option ℕ
  discrete : Option ℕ
  columns : List String
  column_types_list : List String
deriving DecidableEq, Repr

/-- The `_descriptive_stats` snapshot.  `rows`, `cols`, `missing_values`
stand for the recomputable parts of `file_stats`. -/
structure Snapshot where
  rows : ℕ
  cols : ℕ
  missing_values : ℕ
  column_types : ColumnTypesSummary
  missing_values_by_column : List (String × ℕ)
  distribution_analysis : List (String × DistEntry)
  outlier_info : List (String × OutlierEntry)
  categorical_stats : List (String × CatEntry)
  boolean_stats : List (String × BoolEntry)
  datetime_stats : List (String × DatetimeEntry)
  ordinal_stats : List (String × CatEntry)
deriving DecidableEq, Repr

/-- `len(self.data)`: the row count (all columns are row-aligned). -/
def datasetRows (d : Dataset) : ℕ :=
  match d with
  | [] => 0
  | c :: _ => c.2.length

/-- The `missing_values_by_column` entry of a column: its missing-cell
count when positive (line 955's `if count > 0` comprehension filter). -/
def mvEntry (s : Series) : Option ℕ :=
  if s.missingCount > 0 then some s.missingCount else none

/-- The `distribution_analysis` entry of a column: only a numeric-dtype
column with at least one non-missing value gets one (lines 978-1018). -/
def distEntryOpt (s : Series) : Option DistEntry :=
  match s with
  | .numeric vals =>
      if (dropNone vals).length ≠ 0 then some (distEntryOf vals) else none
  | _ => none

/-- The `outlier_info` entry of a column (numeric dtype only,
lines 988-1005). -/
def outlierEntryOpt (s : Series) : Option OutlierEntry :=
  match s with
  | .numeric vals => outlierEntryOf vals
  | _ => none

/-- The `categorical_stats` entry of a column: object columns classified
`CATEGORICAL` with a non-empty `value_counts` (lines 1030-1046). -/
def catEntryOpt (isOrd : Series → Bool) (s : Series) : Option CatEntry :=
  match s with
  | .object vals =>
      if determineColumnType isOrd s = ColumnType.CATEGORICAL then
        catEntryOf vals
      else none
  | _ => none

/-- The `ordinal_stats` entry of a column: object columns classified
`ORDINAL` with a non-empty `value_counts` (lines 1030-1048). -/
def ordinalEntryOpt (isOrd : Series → Bool) (s : Series) : Option CatEntry :=
  match s with
  | .object vals =>
      if determineColumnType isOrd s = ColumnType.ORDINAL then
        catEntryOf vals
      else none
  | _ => none

/-- The `boolean_stats` entry of a column: object columns classified
`BOOLEAN` (lines 1049-1058, entry built unconditionally). -/
def boolEntryOpt (isOrd : Series → Bool) (s : Series) : Option BoolEntry :=
  match s with
  | .object vals =>
      if determineColumnType isOrd s = ColumnType.BOOLEAN then
        some (boolEntryCalc vals)
      else none
  | _ => none

/-- The `datetime_stats` entry of a column: datetime-dtype columns whose
entry construction does not raise (lines 1059-1065). -/
def datetimeEntryOpt (s : Series) : Option DatetimeEntry :=
  match s with
  | .datetime vals => datetimeEntryOf vals
  | _ => none

/-- A per-column statistics dictionary, built by walking the columns in
order and keeping each column's entry (when it has one) under the column's
name — the shape shared by every dictionary of
`calculate_descriptive_stats`. -/
def colEntries {γ : Type} (e : Series → Option γ) (d : Dataset) :
    List (String × γ) :=
  d.filterMap fun c => (e c.2).map fun v => (c.1, v)

/-- `DataManager.calculate_descriptive_stats`: the full snapshot rebuild.
Numeric-dtype columns with at least one value contribute
`distribution_analysis` and (when outliers exist) `outlier_info` entries;
the remaining columns are dispatched on `_determine_column_type` into the
categorical/ordinal/boolean/datetime dictionaries. -/
def calculateDescriptiveStats (isOrd : Series → Bool) (d : Dataset) :
    Snapshot :=
  let tlist := d.map fun c => calcTypeString isOrd c.2
  { rows := datasetRows d
    cols := d.length
    missing_values := (d.map fun c => c.2.missingCount).sum
    column_types :=
      { numeric := tlist.count "numeric"
        categorical := tlist.count "categorical"
        boolean := tlist.count "boolean"
        datetime := tlist.count "timeseries"
        ordinal := some (tlist.count "ordinal")
        discrete := some (tlist.count "discrete")
        columns := d.map Prod.fst
        column_types_list := tlist }
    missing_values_by_column := colEntries mvEntry d
    distribution_analysis := colEntries distEntryOpt d
    outlier_info := colEntries outlierEntryOpt d
    categorical_stats := colEntries (catEntryOpt isOrd) d
    boolean_stats := colEntries (boolEntryOpt isOrd) d
    datetime_stats := colEntries datetimeEntryOpt d
    ordinal_stats := colEntries (ordinalEntryOpt isOrd) d }

/-- `DataManager.update_descriptive_stats`: the incremental patch after
column deletion.  Surviving columns keep their stored type (via the
name-to-type map of line 1315) and their stored per-column entries; every
dictionary is filtered to the current columns — except `ordinal_stats`,
which the method never touches — and the new `column_types` summary is
rebuilt without the `ordinal`/`discrete` count keys.  (The method also
column-slices `point_flags`, state outside the snapshot and outside every
claim here.) -/
def updateDescriptiveStats (d : Dataset) (old : Snapshot) : Snapshot :=
  let names := d.map Prod.fst
  let typeMap := old.column_types.columns.zip old.column_types.column_types_list
  let tlist := d.map fun c =>
    match typeMap.lookup c.1 with
    | some t => t
    | none => patchTypeString c.2
  { rows := datasetRows d
    cols := d.length
    missing_values := (d.map fun c => c.2.missingCount).sum
    column_types :=
      { numeric := tlist.count "numeric"
        categorical := tlist.count "categorical"
        boolean := tlist.count "boolean"
        datetime := tlist.count "timeseries"
        ordinal := none
        discrete := none
        columns := names
        column_types_list := tlist }
    missing_values_by_column :=
      old.missing_values_by_column.filter fun p => names.contains p.1
    distribution_analysis :=
      old.distribution_analysis.filter fun p => names.contains p.1
    outlier_info := old.outlier_info.filter fun p => names.contains p.1
    categorical_stats :=
      old.categorical_stats.filter fun p => names.contains p.1
    boolean_stats := old.boolean_stats.filter fun p => names.contains p.1
    datetime_stats := old.datetime_stats.filter fun p => names.contains p.1
    ordinal_stats := old.ordinal_stats }

/-- `DataManager.delete_columns` on the frame itself: drop the named
columns, keeping the survivors in their original order (lines 892-898). -/
def removeColumns (toDelete : List String) (d : Dataset) : Dataset :=
  d.filter fun c => !(toDelete.contains c.1)

/-- A small concrete numeric column: six cells, one missing, five values
`1..5` (symmetric, so the pandas skewness is exactly 0 and the kurtosis
exactly -6/5). -/
def fiveValueColumn : List (Option ℚ) :=
  [some 1, some 2, none, some 3, some 4, some 5]

/-- The 25-row numeric column of spec Scenario C: 22 in-range ages and 3
values above 120. -/
def ageColumn : List (Option ℚ) :=
  List.replicate 22 (some 30) ++ [some 150, some 200, some 300]

/-- An all-`NORMAL` flag slice for the 25-row age column. -/
def ageFlags : List DataPointFlag := List.replicate 25 DataPointFlag.NORMAL

/-- Modelled from the spec: claim C2's reading of the 20-cell floor — the
number of cells that would actually remain NORMAL after the range marking,
i.e. cells currently flagged NORMAL whose value is not out of bounds.  This
differs from the code's `remaining_normal` (`total - out_of_bounds -
missing`, data_manager.py lines 1592-1596), which counts OUTLIER and
UNEXPECTED_TYPE cells as if they were normal. -/
def specRemainingNormal (vals : List (Option ℚ)) (flags : List DataPointFlag)
    (minV maxV : ℚ) : ℕ :=
  ((outOfBoundsMask vals minV maxV).zip flags).countP fun mf =>
    mf.2 = DataPointFlag.NORMAL ∧ mf.1 = false

/-- A 25-row numeric column whose values all lie inside `[0, 120]`. -/
def inRangeColumn : List (Option ℚ) := List.replicate 25 (some 30)

/-- A flag slice with 10 pre-existing OUTLIER flags (as
`_update_numeric_IQR_outlier_flags` leaves behind) and 15 NORMAL cells. -/
def mixedFlags : List DataPointFlag :=
  List.replicate 10 DataPointFlag.OUTLIER
    ++ List.replicate 15 DataPointFlag.NORMAL

/-- A two-column dataset (one categorical, one discrete numeric column)
used to instantiate the column-removal claims. -/
def sampleDataset : Dataset :=
  [("a", Series.object [some "x", some "y", some "z"]),
   ("b", Series.numeric [some 1, some 2, some 3])]

/-- What survives of claim C4 after comparing `update_descriptive_stats`
with a fresh `calculate_descriptive_stats` on the post-removal dataset:
every per-surviving-column statistics dictionary, the per-column type list
and the file-level counts agree, while the `column_types` summary agrees
only up to the `ordinal`/`discrete` count keys the patch omits (and
`ordinal_stats`, which the patch leaves unfiltered, agrees once restricted
to the surviving columns). -/
def patchMatchesRebuild (isOrd : Series → Bool) (d : Dataset)
    (toDelete : List String) : Prop :=
  let patched := updateDescriptiveStats (removeColumns toDelete d)
    (calculateDescriptiveStats isOrd d)
  let fresh := calculateDescriptiveStats isOrd (removeColumns toDelete d)
  patched.column_types
      = { fresh.column_types with ordinal := none, discrete := none } ∧
  patched.missing_values_by_column = fresh.missing_values_by_column ∧
  patched.distribution_analysis = fresh.distribution_analysis ∧
  patched.outlier_info = fresh.outlier_info ∧
  patched.categorical_stats = fresh.categorical_stats ∧
  patched.boolean_stats = fresh.boolean_stats ∧
  patched.datetime_stats = fresh.datetime_stats ∧
  patched.ordinal_stats.filter
      (fun p => ((removeColumns toDelete d).map Prod.fst).contains p.1)
    = fresh.ordinal_stats ∧
  patched.rows = fresh.rows ∧ patched.cols = fresh.cols ∧
  patched.missing_values = fresh.missing_values

/-! ### Theorems

First the claim-independent lemmas shared by the proofs, then one theorem
(with its witness or counterexample where required) per claim. -/

theorem dropNone_eq_nil_of_all_none {α : Type} {vals : List (Option α)}
    (h : ∀ v ∈ vals, v = none) : dropNone vals = [] := by
  simp only [dropNone, List.filterMap_eq_nil_iff, id_eq]
  exact h

theorem markOutliers_get_missing (lowerB upperB : ℚ) :
    ∀ (vs : List (Option ℚ)) (fs : List DataPointFlag) (r : ℕ),
      vs.get? r = some none →
      (markOutliers lowerB upperB vs fs).get? r = fs.get? r := by
  intro vs
  induction vs with
  | nil => intro fs r h; simp at h
  | cons v vs ih =>
      intro fs r h
      cases fs with
      | nil => rfl
      | cons f fs =>
          cases r with
          | zero =>
              simp only [List.get?] at h
              cases h
              rfl
          | succ r =>
              simp only [List.get?] at h
              exact ih fs r h

theorem markOutliers_idem (lowerB upperB : ℚ) :
    ∀ (vs : List (Option ℚ)) (fs : List DataPointFlag),
      markOutliers lowerB upperB vs (markOutliers lowerB upperB vs fs)
        = markOutliers lowerB upperB vs fs := by
  intro vs
  induction vs with
  | nil => intro fs; rfl
  | cons v vs ih =>
      intro fs
      cases fs with
      | nil => rfl
      | cons f fs =>
          cases v with
          | none =>
              show f :: markOutliers lowerB upperB vs
                    (markOutliers lowerB upperB vs fs)
                  = f :: markOutliers lowerB upperB vs fs
              rw [ih]
          | some x =>
              show (if x < lowerB ∨ upperB < x then DataPointFlag.OUTLIER
                    else if x < lowerB ∨ upperB < x then DataPointFlag.OUTLIER
                    else f)
                    :: markOutliers lowerB upperB vs
                        (markOutliers lowerB upperB vs fs)
                  = (if x < lowerB ∨ upperB < x then DataPointFlag.OUTLIER
                     else f) :: markOutliers lowerB upperB vs fs
              rw [ih]
              by_cases hx : x < lowerB ∨ upperB < x
              · simp only [if_pos hx]
              · simp only [if_neg hx]

theorem updateIQRFlagsCol_idem (s : Series) (fs : List DataPointFlag) :
    updateIQRFlagsCol s (updateIQRFlagsCol s fs) = updateIQRFlagsCol s fs := by
  cases s with
  | numeric vals =>
      by_cases h : (dropNone vals).length = 0
      · simp [updateIQRFlagsCol, h]
      · simp [updateIQRFlagsCol, h, markOutliers_idem]
  | datetime vals => simp [updateIQRFlagsCol]
  | object vals => simp [updateIQRFlagsCol]

theorem updateIQRFlagsCol_missing (s : Series) (fs : List DataPointFlag)
    (r : ℕ) (h : s.isMissingAt r = true) :
    (updateIQRFlagsCol s fs).get? r = fs.get? r := by
  cases s with
  | numeric vals =>
      simp only [Series.isMissingAt, beq_iff_eq] at h
      by_cases hl : (dropNone vals).length = 0
      · simp [updateIQRFlagsCol, hl]
      · simp only [updateIQRFlagsCol, hl, if_false]
        exact markOutliers_get_missing _ _ vals fs r h
  | datetime vals => simp [updateIQRFlagsCol]
  | object vals => simp [updateIQRFlagsCol]

theorem updateIQRFlags_nil_left (g : FlagGrid) : updateIQRFlags [] g = [] := by
  simp [updateIQRFlags]

theorem updateIQRFlags_nil_right (d : Dataset) : updateIQRFlags d [] = [] := by
  simp [updateIQRFlags]

theorem updateIQRFlags_cons (c : String × Series) (d : Dataset)
    (f : List DataPointFlag) (g : FlagGrid) :
    updateIQRFlags (c :: d) (f :: g)
      = updateIQRFlagsCol c.2 f :: updateIQRFlags d g := by
  simp [updateIQRFlags]

theorem updateIQRFlags_idem : ∀ (d : Dataset) (g : FlagGrid),
    updateIQRFlags d (updateIQRFlags d g) = updateIQRFlags d g := by
  intro d
  induction d with
  | nil => intro g; rfl
  | cons c d ih =>
      intro g
      cases g with
      | nil => rfl
      | cons f g =>
          rw [updateIQRFlags_cons c d f g, updateIQRFlags_cons,
            updateIQRFlagsCol_idem, ih]

theorem updateIQRFlags_missing : ∀ (d : Dataset) (g : FlagGrid) (c r : ℕ),
    cellIsMissing d c r = true →
    flagAt (updateIQRFlags d g) c r = flagAt g c r := by
  intro d
  induction d with
  | nil => intro g c r h; simp [cellIsMissing] at h
  | cons col d ih =>
      intro g c r h
      cases g with
      | nil => rfl
      | cons f g =>
          cases c with
          | zero =>
              rw [updateIQRFlags_cons]
              show (updateIQRFlagsCol col.2 f).get? r = f.get? r
              exact updateIQRFlagsCol_missing col.2 f r h
          | succ c =>
              rw [updateIQRFlags_cons]
              show flagAt (updateIQRFlags d g) c r = flagAt g c r
              exact ih g c r h

/-- Claim C9: `_update_numeric_IQR_outlier_flags` never changes the flag of
a cell whose value is missing (how a MISSING-flagged cell looks in every
state the flag-initialisation produces: `_update_missing_and_unexpected_flags`
writes MISSING exactly at NaN cells, and the IQR mask excludes NaN), and
running it a second time on unchanged data leaves the grid identical to
running it once. -/
theorem iqr_outliers_skip_missing_and_idempotent (d : Dataset) (g : FlagGrid) :
    updateIQRFlags d (updateIQRFlags d g) = updateIQRFlags d g ∧
    ∀ c r, cellIsMissing d c r = true →
      flagAt (updateIQRFlags d g) c r = flagAt g c r :=
  ⟨updateIQRFlags_idem d g, fun c r h => updateIQRFlags_missing d g c r h⟩

/-- Witness for claim C9 at a concrete one-column dataset: the missing cell
(row 1) keeps its MISSING flag while row 5 (value 1000, far outside the IQR
bounds of 1,2,3,4,1000) is flagged OUTLIER. -/
theorem iqr_outliers_skip_missing_and_idempotent_witness :
    cellIsMissing
        [("x", Series.numeric
          [some 1, none, some 2, some 3, some 4, some 1000])] 0 1 = true ∧
    flagAt (updateIQRFlags
        [("x", Series.numeric
          [some 1, none, some 2, some 3, some 4, some 1000])]
        [[DataPointFlag.NORMAL, DataPointFlag.MISSING, DataPointFlag.NORMAL,
          DataPointFlag.NORMAL, DataPointFlag.NORMAL, DataPointFlag.NORMAL]])
        0 1
      = flagAt
        [[DataPointFlag.NORMAL, DataPointFlag.MISSING, DataPointFlag.NORMAL,
          DataPointFlag.NORMAL, DataPointFlag.NORMAL, DataPointFlag.NORMAL]]
        0 1 :=
  ⟨by decide,
   (iqr_outliers_skip_missing_and_idempotent _ _).2 0 1 (by decide)⟩

/-- Claim C10: no input column ever classifies `censored`: the branch of
`_determine_column_type` returning `CENSORED` is guarded by `_is_censored`,
whose body returns `False` on every input, whatever the ordinal heuristic
does. -/
theorem classify_never_censored (isOrd : Series → Bool) (s : Series) :
    determineColumnType isOrd s ≠ ColumnType.CENSORED := by
  unfold determineColumnType
  split_ifs <;> simp_all [isCensored]

/-- Counterexample to claim C5: the column `["Yes","No","Yes","No"]` — two
distinct tokens — classifies `boolean`, not `categorical`.  (The ordinal
heuristic is irrelevant: the two-distinct-values branch fires first; the
trivially-false oracle used here agrees with the real `_is_ordinal` on this
column.) -/
theorem yesNo_column_classifies_boolean :
    determineColumnType constFalseOrd yesNoColumn = ColumnType.BOOLEAN ∧
    determineColumnType constFalseOrd yesNoColumn ≠ ColumnType.CATEGORICAL := by
  decide

/-- Claim C5 amended: `_determine_column_type` has no boolean literal
allowlist — every column that is not numeric-dtyped, not datetime-dtyped
and has exactly 2 distinct values classifies `boolean`, whatever the
tokens; in particular `["Yes","No","Yes","No"]` classifies `boolean`, not
`categorical`. -/
theorem classify_two_distinct_nonnumeric_is_boolean
    (isOrd : Series → Bool) (s : Series)
    (h1 : s.isNumericDtype = false) (h2 : s.isDatetimeDtype = false)
    (h3 : s.nunique = 2) :
    determineColumnType isOrd s = ColumnType.BOOLEAN := by
  unfold determineColumnType
  simp [h1, h2, h3]

/-- Witness for the amended claim C5 at the Scenario B column. -/
theorem classify_two_distinct_nonnumeric_is_boolean_witness :
    yesNoColumn.isNumericDtype = false ∧ yesNoColumn.nunique = 2 ∧
    determineColumnType constFalseOrd yesNoColumn = ColumnType.BOOLEAN :=
  ⟨by decide, by decide,
   classify_two_distinct_nonnumeric_is_boolean constFalseOrd yesNoColumn
     (by decide) (by decide) (by decide)⟩

/-- Counterexample to claim C6: an all-missing column materialises as an
all-NaN float64 column under `read_csv`, whose numeric dtype sends
`_determine_column_type` down the numeric branch: 0 distinct values < 20,
so it classifies `discrete` — not `categorical`. -/
theorem all_missing_numeric_column_classifies_discrete :
    determineColumnType constFalseOrd (Series.numeric [none, none, none])
        = ColumnType.DISCRETE ∧
    determineColumnType constFalseOrd (Series.numeric [none, none, none])
        ≠ ColumnType.CATEGORICAL := by
  decide

/-- Claim C6 amended: an all-missing column of numeric dtype (the dtype
`read_csv` assigns an all-empty column) classifies `discrete`; an
all-missing object-dtype column classifies `categorical` (the ordinal
heuristic returns false below 2 unique values — `_is_ordinal` lines
203-205). -/
theorem all_missing_classification :
    (∀ (isOrd : Series → Bool) (vals : List (Option ℚ)),
      (∀ v ∈ vals, v = none) →
      determineColumnType isOrd (Series.numeric vals) = ColumnType.DISCRETE) ∧
    (∀ (isOrd : Series → Bool) (vals : List (Option String)),
      (∀ v ∈ vals, v = none) →
      (∀ s : Series, s.nunique < 2 → isOrd s = false) →
      determineColumnType isOrd (Series.object vals) = ColumnType.CATEGORICAL) := by
  constructor
  · intro isOrd vals h
    have hz : (Series.numeric vals).nunique = 0 := by
      simp [Series.nunique, dropNone_eq_nil_of_all_none h]
    unfold determineColumnType
    simp [Series.isNumericDtype, hz]
  · intro isOrd vals h hOrd
    have hz : (Series.object vals).nunique = 0 := by
      simp [Series.nunique, dropNone_eq_nil_of_all_none h]
    have ho : isOrd (Series.object vals) = false := by
      apply hOrd
      omega
    unfold determineColumnType
    simp [Series.isNumericDtype, Series.isDatetimeDtype, hz, ho, isCensored]

/-- Witness for the amended claim C6 at concrete all-missing columns. -/
theorem all_missing_classification_witness :
    determineColumnType constFalseOrd (Series.numeric [none, none])
        = ColumnType.DISCRETE ∧
    determineColumnType constFalseOrd (Series.object [none])
        = ColumnType.CATEGORICAL :=
  ⟨all_missing_classification.1 constFalseOrd [none, none] (by decide),
   all_missing_classification.2 constFalseOrd [none] (by decide)
     (fun _ _ => rfl)⟩

theorem fiveValue_clean : dropNone fiveValueColumn = [1, 2, 3, 4, 5] := rfl

theorem fiveValue_m2 : centralMoment 2 [1, 2, 3, 4, 5] = 2 := by
  simp [centralMoment, qmean]; norm_num

theorem fiveValue_m3 : centralMoment 3 [1, 2, 3, 4, 5] = 0 := by
  simp [centralMoment, qmean]; norm_num

theorem fiveValue_m4 : centralMoment 4 [1, 2, 3, 4, 5] = 34 / 5 := by
  simp [centralMoment, qmean]; norm_num

theorem fiveValue_skewSq : skewSq [1, 2, 3, 4, 5] = 0 := by
  simp [skewSq, fiveValue_m2, fiveValue_m3]

theorem fiveValue_skewSgn : skewSgn [1, 2, 3, 4, 5] = 0 := by
  simp [skewSgn, fiveValue_m2, fiveValue_m3]

theorem fiveValue_kurt : kurtVal [1, 2, 3, 4, 5] = -(6 / 5) := by
  simp [kurtVal, fiveValue_m2, fiveValue_m4]; norm_num

theorem fiveValue_skewAbsLtHalf : skewAbsLtHalf [1, 2, 3, 4, 5] = true := by
  have h1 : skewIsNaN [1, 2, 3, 4, 5] = false := rfl
  rw [skewAbsLtHalf, h1, fiveValue_skewSq]
  simp only [Bool.not_false, Bool.true_and, decide_eq_true_eq]
  norm_num

theorem fiveValue_kurtAbsLtTwo : kurtAbsLtTwo [1, 2, 3, 4, 5] = true := by
  have h1 : kurtIsNaN [1, 2, 3, 4, 5] = false := rfl
  rw [kurtAbsLtTwo, h1, fiveValue_kurt]
  simp only [Bool.not_false, Bool.true_and, decide_eq_true_eq, abs_lt]
  constructor <;> norm_num

theorem fiveValue_normal : determineDistribution [1, 2, 3, 4, 5] = "normal" := by
  simp [determineDistribution, fiveValue_skewAbsLtHalf, fiveValue_kurtAbsLtTwo]

theorem fiveValue_fallback :
    momentFallbackCascade [1, 2, 3, 4, 5] = "light_tailed" := by
  have hgt : skewGtOne [1, 2, 3, 4, 5] = false := by
    rw [skewGtOne, fiveValue_skewSgn]; simp
  have hlt : skewLtNegOne [1, 2, 3, 4, 5] = false := by
    rw [skewLtNegOne, fiveValue_skewSgn]; simp
  have hnan : kurtIsNaN [1, 2, 3, 4, 5] = false := rfl
  have hheavy : decide (3 < kurtVal [1, 2, 3, 4, 5]) = false := by
    rw [fiveValue_kurt]
    simp only [decide_eq_false_iff_not]
    norm_num
  have hlight : decide (kurtVal [1, 2, 3, 4, 5] < -1) = true := by
    rw [fiveValue_kurt]
    simp only [decide_eq_true_eq]
    norm_num
  rw [momentFallbackCascade, hgt, hlt, hnan, hheavy, hlight]
  simp

/-- Counterexample to claim C7: a numeric series with only 5 non-missing
values — far below 30 — is classified `normal` by
`_determine_distribution`, not `insufficient_data`: the source has no
sample-size floor. -/
theorem small_sample_classified_not_insufficient :
    (dropNone fiveValueColumn).length < 30 ∧
    determineDistribution (dropNone fiveValueColumn) = "normal" ∧
    determineDistribution (dropNone fiveValueColumn) ≠ "insufficient_data" := by
  rw [fiveValue_clean]
  refine ⟨by norm_num, fiveValue_normal, ?_⟩
  rw [fiveValue_normal]
  decide

/-- Claim C7 amended: `_determine_distribution` applies its moment cascade
whatever the sample size; no input ever yields `insufficient_data` (the
string occurs nowhere in the source). -/
theorem determine_distribution_never_insufficient (xs : List ℚ) :
    determineDistribution xs ≠ "insufficient_data" := by
  unfold determineDistribution momentFallbackCascade
  split_ifs <;> decide

/-- Counterexample to claim C8: there is no normality test in
`_determine_distribution` to force — on five symmetric values the code
returns `normal` outright, while the spec's test-gated classifier with a
forced p-value of 0.01 ≤ 0.05 falls through to the moment fallback
(`light_tailed` at kurtosis -1.2). -/
theorem forced_low_p_not_respected :
    (1 / 100 : ℚ) ≤ 1 / 20 ∧
    determineDistribution (dropNone fiveValueColumn) = "normal" ∧
    specDistributionWithTest (1 / 100) (dropNone fiveValueColumn)
        = "light_tailed" ∧
    determineDistribution (dropNone fiveValueColumn)
        ≠ specDistributionWithTest (1 / 100) (dropNone fiveValueColumn) := by
  rw [fiveValue_clean]
  have hspec : specDistributionWithTest (1 / 100) [1, 2, 3, 4, 5]
      = "light_tailed" := by
    rw [specDistributionWithTest, fiveValue_skewAbsLtHalf,
      fiveValue_kurtAbsLtTwo]
    rw [if_pos (show (true && true) = true from rfl)]
    rw [if_neg (show ¬ (1 / 20 : ℚ) < 1 / 100 by norm_num)]
    exact fiveValue_fallback
  refine ⟨by norm_num, fiveValue_normal, hspec, ?_⟩
  rw [fiveValue_normal, hspec]
  decide

/-- Claim C8 amended: whenever `|skew| < 0.5` and `|kurtosis| < 2`,
`_determine_distribution` returns `normal` unconditionally — no normality
test is consulted, so no forced p-value can change the result. -/
theorem moments_normal_unconditional (xs : List ℚ)
    (h1 : skewAbsLtHalf xs = true) (h2 : kurtAbsLtTwo xs = true) :
    determineDistribution xs = "normal" := by
  unfold determineDistribution
  simp [h1, h2]

/-- Witness for the amended claim C8 at the five-value column. -/
theorem moments_normal_unconditional_witness :
    skewAbsLtHalf (dropNone fiveValueColumn) = true ∧
    kurtAbsLtTwo (dropNone fiveValueColumn) = true ∧
    determineDistribution (dropNone fiveValueColumn) = "normal" :=
  ⟨by rw [fiveValue_clean]; exact fiveValue_skewAbsLtHalf,
   by rw [fiveValue_clean]; exact fiveValue_kurtAbsLtTwo,
   moments_normal_unconditional (dropNone fiveValueColumn)
     (by rw [fiveValue_clean]; exact fiveValue_skewAbsLtHalf)
     (by rw [fiveValue_clean]; exact fiveValue_kurtAbsLtTwo)⟩

/-- Claim C1 (code bug): on spec Scenario C's input — 25 numeric rows, 3
values above the bound 120, so 22 ≥ 20 cells would remain normal — every
guard of `add_new_column_range_flags` passes, yet the operation fails: the
flag assignment at data_manager.py line 1615 evaluates
`DataPointFlag.OUTOFBOUNDS`, a member `enums.py` never defines, raising
`AttributeError` with the grid untouched, where both the method's docstring
and the claim promise 3 cells marked OUTOFBOUNDS. -/
theorem scenario_c_raises_attribute_error :
    remainingNormalCount ageColumn ageFlags 0 120 = 22 ∧
    (outOfBoundsMask ageColumn 0 120).count true = 3 ∧
    addNewColumnRangeFlags (Series.numeric ageColumn) ageFlags 0 120
      = (Except.error RangeFlagError.attributeErrorOutOfBounds, ageFlags) :=
  ⟨by decide, by decide, rfl⟩

theorem apply_range_guard_value_error (s : Series)
    (flags : List DataPointFlag) (minV maxV : ℚ)
    (h : maxV ≤ minV ∨ s.isNumericDtype = false ∨
      codeRemainingNormal s flags minV maxV < 20) :
    ∃ e : RangeFlagError, e.isValueError = true ∧
      addNewColumnRangeFlags s flags minV maxV = (Except.error e, flags) := by
  by_cases hmm : maxV ≤ minV
  · refine ⟨RangeFlagError.invalidRange, rfl, ?_⟩
    unfold addNewColumnRangeFlags
    rw [if_pos hmm]
  · cases s with
    | numeric vals =>
        rcases h with h | h | h
        · exact absurd h hmm
        · simp [Series.isNumericDtype] at h
        · refine ⟨RangeFlagError.tooFewNormal, rfl, ?_⟩
          unfold addNewColumnRangeFlags
          rw [if_neg hmm]
          exact if_pos h
    | datetime vals =>
        refine ⟨RangeFlagError.nonNumericColumn, rfl, ?_⟩
        unfold addNewColumnRangeFlags
        rw [if_neg hmm]
    | object vals =>
        refine ⟨RangeFlagError.nonNumericColumn, rfl, ?_⟩
        unfold addNewColumnRangeFlags
        rw [if_neg hmm]

theorem apply_range_never_mutates (s : Series) (flags : List DataPointFlag)
    (minV maxV : ℚ) :
    (addNewColumnRangeFlags s flags minV maxV).2 = flags := by
  cases s <;> simp only [addNewColumnRangeFlags] <;> split_ifs <;> rfl

/-- Counterexample to claim C2: on a 25-row in-range numeric column with 10
cells already flagged OUTLIER (the state `_update_numeric_IQR_outlier_flags`
leaves behind), only 15 cells would remain NORMAL — below the claimed
20-cell floor — yet `add_new_column_range_flags` does not raise the claimed
`ValueError`: its guard computes `25 - 0 - 0 = 25 >= 20` because it counts
OUTLIER cells as if they were normal, passes, and the call then dies with
the `AttributeError` of the missing OUTOFBOUNDS enum member. -/
theorem preexisting_outliers_defeat_value_error :
    specRemainingNormal inRangeColumn mixedFlags 0 120 = 15 ∧
    remainingNormalCount inRangeColumn mixedFlags 0 120 = 25 ∧
    addNewColumnRangeFlags (Series.numeric inRangeColumn) mixedFlags 0 120
      = (Except.error RangeFlagError.attributeErrorOutOfBounds, mixedFlags) ∧
    RangeFlagError.isValueError RangeFlagError.attributeErrorOutOfBounds
      = false :=
  ⟨by decide, by decide, rfl, rfl⟩

/-- Claim C2 amended: `add_new_column_range_flags` raises `ValueError` with
the flag grid byte-for-byte unchanged whenever `min >= max`, the column is
non-numeric, or the code's own remaining-normal count
(`total - out_of_bounds - missing`, which counts OUTLIER and
UNEXPECTED_TYPE cells as if they were normal) falls below 20; when every
guard passes — even if fewer than 20 cells would truly remain NORMAL
because of pre-existing OUTLIER/UNEXPECTED_TYPE flags — the call fails with
`AttributeError` (the missing OUTOFBOUNDS enum member) instead of a
`ValueError`; in every case no flag is ever written. -/
theorem apply_range_rejection_corrected :
    (∀ (s : Series) (flags : List DataPointFlag) (minV maxV : ℚ),
      (maxV ≤ minV ∨ s.isNumericDtype = false ∨
        codeRemainingNormal s flags minV maxV < 20) →
      ∃ e : RangeFlagError, e.isValueError = true ∧
        addNewColumnRangeFlags s flags minV maxV = (Except.error e, flags)) ∧
    (∀ (vals : List (Option ℚ)) (flags : List DataPointFlag) (minV maxV : ℚ),
      minV < maxV →
      20 ≤ remainingNormalCount vals flags minV maxV →
      addNewColumnRangeFlags (Series.numeric vals) flags minV maxV
        = (Except.error RangeFlagError.attributeErrorOutOfBounds, flags)) ∧
    (∀ (s : Series) (flags : List DataPointFlag) (minV maxV : ℚ),
      (addNewColumnRangeFlags s flags minV maxV).2 = flags) := by
  refine ⟨apply_range_guard_value_error, ?_, apply_range_never_mutates⟩
  intro vals flags minV maxV hlt hge
  unfold addNewColumnRangeFlags
  rw [if_neg (not_le.mpr hlt)]
  exact if_neg (not_lt.mpr hge)

/-- Witness for the amended claim C2: inverted bounds are rejected with a
`ValueError`-class error and an unchanged flag slice; on the Scenario C
column every guard passes and the call fails with the `AttributeError`;
and the flag slice comes back unchanged. -/
theorem apply_range_rejection_corrected_witness :
    (∃ e : RangeFlagError, e.isValueError = true ∧
      addNewColumnRangeFlags (Series.numeric [some 1])
          [DataPointFlag.NORMAL] 5 3
        = (Except.error e, [DataPointFlag.NORMAL])) ∧
    addNewColumnRangeFlags (Series.numeric ageColumn) ageFlags 0 120
      = (Except.error RangeFlagError.attributeErrorOutOfBounds, ageFlags) ∧
    (addNewColumnRangeFlags (Series.object [some "a"])
        [DataPointFlag.NORMAL] 0 1).2 = [DataPointFlag.NORMAL] :=
  ⟨apply_range_rejection_corrected.1 (Series.numeric [some 1])
      [DataPointFlag.NORMAL] 5 3 (Or.inl (by norm_num)),
   apply_range_rejection_corrected.2.1 ageColumn ageFlags 0 120
      (by norm_num) (by decide),
   apply_range_rejection_corrected.2.2 (Series.object [some "a"])
      [DataPointFlag.NORMAL] 0 1⟩

/-- Counterexample to claim C3: the percent sequence recorded by the
successive `update_progress` calls of one successful run is not
non-decreasing — after the worker pre-reports 95% (routes.py line 390),
`calculate_descriptive_stats` re-issues 85% (data_manager.py line 941). -/
theorem progress_percent_regression :
    pairwiseHolds (fun a b => decide (a ≤ b)) successfulRunPercents = false ∧
    successfulRunPercents.get? 21 = some 95 ∧
    successfulRunPercents.get? 22 = some 85 := by
  decide

theorem colEntries_name_mem {γ : Type} (e : Series → Option γ) (d : Dataset)
    (x : String × γ) (hx : x ∈ colEntries e d) : x.1 ∈ d.map Prod.fst := by
  rcases List.mem_filterMap.mp hx with ⟨c, hc, hfc⟩
  cases he : e c.2 with
  | none => rw [he] at hfc; simp at hfc
  | some v =>
      rw [he] at hfc
      simp only [Option.map_some'] at hfc
      cases hfc
      exact List.mem_map_of_mem Prod.fst hc

theorem namesOfFilter_contains (d : Dataset) (q : String → Bool) (n : String)
    (hn : n ∈ d.map Prod.fst) :
    ((d.filter fun c => q c.1).map Prod.fst).contains n = q n := by
  cases hqb : q n with
  | true =>
      rcases List.mem_map.mp hn with ⟨c, hc, hcn⟩
      apply List.elem_eq_true_of_mem
      refine List.mem_map.mpr ⟨c, List.mem_filter.mpr ⟨hc, ?_⟩, hcn⟩
      rw [hcn]
      exact hqb
  | false =>
      rw [Bool.eq_false_iff]
      intro hc
      rcases List.mem_map.mp (List.mem_of_elem_eq_true hc) with ⟨c, hcf, hcn⟩
      rcases List.mem_filter.mp hcf with ⟨_, hqc⟩
      rw [hcn] at hqc
      rw [hqc] at hqb
      cases hqb

theorem colEntries_filter_comm {γ : Type} (e : Series → Option γ)
    (q : String → Bool) :
    ∀ d : Dataset, (colEntries e d).filter (fun x => q x.1)
      = colEntries e (d.filter fun c => q c.1) := by
  intro d
  induction d with
  | nil => rfl
  | cons c d ih =>
      by_cases hq : q c.1 = true <;>
        cases he : e c.2 <;>
          simp [colEntries, List.filterMap_cons, List.filter_cons, he, hq] <;>
            simpa [colEntries] using ih

theorem colEntries_restrict {γ : Type} (e : Series → Option γ)
    (q : String → Bool) (d : Dataset) :
    (colEntries e d).filter
        (fun x => ((d.filter fun c => q c.1).map Prod.fst).contains x.1)
      = colEntries e (d.filter fun c => q c.1) := by
  rw [List.filter_congr
    (fun x hx => namesOfFilter_contains d q x.1 (colEntries_name_mem e d x hx))]
  exact colEntries_filter_comm e q d

theorem lookup_zip_types (g : String × Series → String) :
    ∀ d : Dataset, (d.map Prod.fst).Nodup → ∀ c ∈ d,
      ((d.map Prod.fst).zip (d.map g)).lookup c.1 = some (g c) := by
  intro d
  induction d with
  | nil => intro _ c hc; exact absurd hc (List.not_mem_nil c)
  | cons hd tl ih =>
      intro hnd c hc
      rw [List.map_cons, List.map_cons, List.zip_cons_cons]
      rcases List.mem_cons.mp hc with rfl | hctl
      · simp [List.lookup]
      · have hne : c.1 ≠ hd.1 := by
          intro he
          exact (List.nodup_cons.mp hnd).1
            (he ▸ List.mem_map_of_mem Prod.fst hctl)
        simp only [List.lookup, beq_false_of_ne hne]
        exact ih (List.nodup_cons.mp hnd).2 c hctl

theorem patched_tlist_eq (isOrd : Series → Bool) (d : Dataset)
    (q : String → Bool) (hnd : (d.map Prod.fst).Nodup) :
    ((d.filter fun c => q c.1).map fun c =>
      match ((d.map Prod.fst).zip
          (d.map fun c' => calcTypeString isOrd c'.2)).lookup c.1 with
      | some t => t
      | none => patchTypeString c.2)
    = (d.filter fun c => q c.1).map fun c => calcTypeString isOrd c.2 := by
  apply List.map_eq_map_iff.mpr
  intro c hc
  rw [lookup_zip_types (fun c' => calcTypeString isOrd c'.2) d hnd c
    (List.mem_filter.mp hc).1]

/-- Claim C4 amended: after deleting columns from a dataset with distinct
column names, the incremental patch and a fresh full recomputation agree on
every per-surviving-column statistics entry, on `missing_values_by_column`,
on the per-column type list and on the file-level counts; the `column_types`
summaries differ exactly in the `ordinal` and `discrete` count keys, which
the full recomputation emits and the patch omits (and the patch leaves
stale `ordinal_stats` entries of deleted columns behind, though the
surviving ones agree). -/
theorem patch_after_column_removal_matches_rebuild (isOrd : Series → Bool)
    (d : Dataset) (toDelete : List String)
    (hnd : (d.map Prod.fst).Nodup) :
    patchMatchesRebuild isOrd d toDelete := by
  unfold patchMatchesRebuild
  have hl := patched_tlist_eq isOrd d (fun n => !(toDelete.contains n)) hnd
  refine ⟨?_, ?_, ?_, ?_, ?_, ?_, ?_, ?_, rfl, rfl, rfl⟩
  · show ColumnTypesSummary.mk _ _ _ _ _ _ _ _ = ColumnTypesSummary.mk _ _ _ _ _ _ _ _
    simp only [updateDescriptiveStats, calculateDescriptiveStats, removeColumns]
    rw [hl]
  · exact colEntries_restrict mvEntry (fun n => !(toDelete.contains n)) d
  · exact colEntries_restrict distEntryOpt (fun n => !(toDelete.contains n)) d
  · exact colEntries_restrict outlierEntryOpt (fun n => !(toDelete.contains n)) d
  · exact colEntries_restrict (catEntryOpt isOrd) (fun n => !(toDelete.contains n)) d
  · exact colEntries_restrict (boolEntryOpt isOrd) (fun n => !(toDelete.contains n)) d
  · exact colEntries_restrict datetimeEntryOpt (fun n => !(toDelete.contains n)) d
  · exact colEntries_restrict (ordinalEntryOpt isOrd) (fun n => !(toDelete.contains n)) d

/-- Witness for the amended claim C4 at the concrete two-column dataset,
deleting column `b`. -/
theorem patch_after_column_removal_matches_rebuild_witness :
    patchMatchesRebuild constFalseOrd sampleDataset ["b"] :=
  patch_after_column_removal_matches_rebuild constFalseOrd sampleDataset
    ["b"] (by decide)

/-- Counterexample to claim C4: the patched snapshot's `column_types`
summary never carries the `ordinal`/`discrete` count keys that the full
recomputation emits (`update_descriptive_stats` rebuilds the summary with
only numeric/categorical/boolean/datetime counts, data_manager.py lines
1337-1344), so already on a two-column dataset with one column deleted the
two `column_types` values differ. -/
theorem patch_column_types_differ_from_rebuild :
    (updateDescriptiveStats (removeColumns ["b"] sampleDataset)
        (calculateDescriptiveStats constFalseOrd sampleDataset)).column_types.discrete
      = none ∧
    (calculateDescriptiveStats constFalseOrd
        (removeColumns ["b"] sampleDataset)).column_types.discrete
      = some 0 ∧
    (updateDescriptiveStats (removeColumns ["b"] sampleDataset)
        (calculateDescriptiveStats constFalseOrd sampleDataset)).column_types
      ≠ (calculateDescriptiveStats constFalseOrd
          (removeColumns ["b"] sampleDataset)).column_types :=
  ⟨rfl, rfl, by decide⟩

/-- Claim C3 amended: within one successful run the recorded percent is
non-decreasing except for the single regression from 95 back to 85, where
`calculate_descriptive_stats` re-reports the five stage percentages the
worker had already announced; the run still terminates at percent 100 with
`is_complete = True`. -/
theorem progress_single_regression_and_completes :
    pairwiseHolds
      (fun a b => decide (a ≤ b) || (decide (a = 95) && decide (b = 85)))
      successfulRunPercents = true ∧
    replayProgress successfulRunUpdates
      = { percent := 100, current_task := "Complete", is_complete := true } := by
  constructor
  · decide
  · rfl

end Biostats
